import Mathlib

/-!
Verification of the SAMA-Discord-Webhook task reminder system.

The repository consists of two Python entry points, `Reminder.py` (batch
webhook alerts) and `discord_bot.py` (interactive per-user digests), which
share a record-extraction, classification and rendering core.  This file
shallowly embeds that core: JSON property values become an inductive `Json`
type with Python truthiness / dict / list semantics, fallible Python
operations (attribute access on non-dicts, bad subscripts, unparsable
dates) become `Except PyErr`, and calendar dates become integer day
numbers, so that `date < date`, `+ timedelta(days := n)` correspond to
integer comparison and addition.
-/

/-- Json values as returned by the Notion API: the value space of a raw
task record's properties.  Python `None` is `null`; dicts are association
lists keyed by strings (the only key type the code uses). -/
inductive Json where
  | null : Json
  | bool : Bool → Json
  | num : Int → Json
  | str : String → Json
  | arr : List Json → Json
  | obj : List (String × Json) → Json

/-- Python exception kinds that the embedded code can raise. -/
inductive PyErr where
  | attributeError : PyErr
  | typeError : PyErr
  | keyError : PyErr
  | indexError : PyErr
  | valueError : PyErr
deriving DecidableEq, Repr

/-- Transport-level failure of the HTTP fetch (`requests.exceptions.RequestException`). -/
inductive ReqErr where
  | requestException : ReqErr

/-- Python truthiness of a value: `None`, `False`, `0`, `""`, `[]`, `{}`
are falsy, everything else truthy. -/
def Json.truthy : Json → Bool
  | Json.null => false
  | Json.bool b => b
  | Json.num n => decide (n ≠ 0)
  | Json.str s => decide (s ≠ "")
  | Json.arr xs => !xs.isEmpty
  | Json.obj kvs => !kvs.isEmpty

/-- Lookup of a string key in an association list (Python dict lookup). -/
def lookupStr : List (String × Json) → String → Option Json
  | [], _ => Option.none
  | (k, v) :: rest, key => if k = key then some v else lookupStr rest key

/-- Python `d.get(key)`: `None` when the key is absent; `AttributeError`
when the receiver is not a dict. -/
def Json.dictGet (j : Json) (k : String) : Except PyErr Json :=
  match j with
  | Json.obj kvs => Except.ok ((lookupStr kvs k).getD Json.null)
  | _ => Except.error PyErr.attributeError

/-- Python `d.get(key, default)`: the stored value when the key is present
(even if that value is `None`), the default otherwise. -/
def Json.dictGetD (j : Json) (k : String) (d : Json) : Except PyErr Json :=
  match j with
  | Json.obj kvs => Except.ok ((lookupStr kvs k).getD d)
  | _ => Except.error PyErr.attributeError

/-- Python `d[key]` with a string key: `KeyError` when absent,
`TypeError` when the receiver is not a dict. -/
def Json.subscr (j : Json) (k : String) : Except PyErr Json :=
  match j with
  | Json.obj kvs =>
    match lookupStr kvs k with
    | some v => Except.ok v
    | Option.none => Except.error PyErr.keyError
  | _ => Except.error PyErr.typeError

/-- Python `len(x)`: defined on strings, lists and dicts, `TypeError` otherwise. -/
def Json.pyLen (j : Json) : Except PyErr Nat :=
  match j with
  | Json.str s => Except.ok s.length
  | Json.arr xs => Except.ok xs.length
  | Json.obj kvs => Except.ok kvs.length
  | _ => Except.error PyErr.typeError

/-- Python `x[0]` with an integer index: list indexing (`IndexError` out of
range), string indexing (a one-character string), `KeyError` on a dict with
string keys, `TypeError` otherwise. -/
def Json.pyIndex (j : Json) (i : Nat) : Except PyErr Json :=
  match j with
  | Json.arr xs =>
    match xs.get? i with
    | some v => Except.ok v
    | Option.none => Except.error PyErr.indexError
  | Json.str s =>
    match s.data.get? i with
    | some c => Except.ok (Json.str (String.mk [c]))
    | Option.none => Except.error PyErr.indexError
  | Json.obj _ => Except.error PyErr.keyError
  | _ => Except.error PyErr.typeError

/-- Whitespace trim of a character list (Python `str.strip()`): drop
leading and trailing whitespace. -/
def stripChars (l : List Char) : List Char :=
  ((l.dropWhile Char.isWhitespace).reverse.dropWhile Char.isWhitespace).reverse

/-- Python `x.strip()`: whitespace trim on strings, `AttributeError` otherwise. -/
def Json.pyStrip (j : Json) : Except PyErr String :=
  match j with
  | Json.str s => Except.ok (String.mk (stripChars s.data))
  | _ => Except.error PyErr.attributeError

/-- Python `x.lower()`: on strings only, `AttributeError` otherwise. -/
def Json.pyLower (j : Json) : Except PyErr String :=
  match j with
  | Json.str s => Except.ok s.toLower
  | _ => Except.error PyErr.attributeError

/-- View a value as a Python list (`isinstance(x, list)`). -/
def Json.asArr : Json → Option (List Json)
  | Json.arr xs => some xs
  | _ => Option.none

/-- Python iteration `for x in j`: lists yield elements, strings yield
one-character strings, dicts yield their keys, other values raise `TypeError`. -/
def Json.pyIter (j : Json) : Except PyErr (List Json) :=
  match j with
  | Json.arr xs => Except.ok xs
  | Json.str s => Except.ok (s.data.map fun c => Json.str (String.mk [c]))
  | Json.obj kvs => Except.ok (kvs.map fun kv => Json.str kv.1)
  | _ => Except.error PyErr.typeError

/-- True exactly on dict values. -/
def Json.isObj : Json → Bool
  | Json.obj _ => true
  | _ => false

/-- True exactly on string values. -/
def Json.isStr : Json → Bool
  | Json.str _ => true
  | _ => false

/-- True when an `Except` carries a result rather than an exception. -/
def exOk {α : Type} : Except PyErr α → Bool
  | Except.ok _ => true
  | Except.error _ => false

/-- extract_task_name (`Reminder.py` lines 30-41, duplicated verbatim in
`discord_bot.py` lines 64-75): read `props["Task"]["title"][0]["text"]["content"]`,
strip whitespace, default to the sentinel "Unnamed Task" at every falsy or
absent step. -/
def extract_task_name (props : Json) : Except PyErr String := do
  let taskProp ← props.dictGetD "Task" (Json.obj [])
  let titleGot ← taskProp.dictGet "title"
  if titleGot.truthy then
    let titleSub ← taskProp.subscr "title"
    let titleLen ← titleSub.pyLen
    if titleLen > 0 then
      let firstBlock ← titleSub.pyIndex 0
      let textGot ← firstBlock.dictGetD "text" (Json.obj [])
      let contentGot ← textGot.dictGet "content"
      if contentGot.truthy then
        let textSub ← firstBlock.subscr "text"
        let contentSub ← textSub.subscr "content"
        let name ← contentSub.pyStrip
        if name ≠ "" then
          pure name
        else
          pure "Unnamed Task"
      else
        pure "Unnamed Task"
    else
      pure "Unnamed Task"
  else
    pure "Unnamed Task"

/-- Loop body shared by both `extract_assigned_people` branches: append
`person["name"]` for every entry whose `name` is truthy, in order. -/
def namesLoop : List Json → Except PyErr (List Json)
  | [] => Except.ok []
  | p :: rest => do
    let nGot ← p.dictGet "name"
    if nGot.truthy then
      let nSub ← p.subscr "name"
      let tail ← namesLoop rest
      pure (nSub :: tail)
    else
      namesLoop rest

/-- Fallback branch of `extract_assigned_people`: the `multi_select`
encoding, guarded by truthiness and `isinstance(..., list)`. -/
def assignMultiBranch (assignProp : Json) : Except PyErr (List Json) := do
  let msGot ← assignProp.dictGet "multi_select"
  if msGot.truthy then
    let msSub ← assignProp.subscr "multi_select"
    match msSub.asArr with
    | some xs => namesLoop xs
    | Option.none => pure []
  else
    pure []

/-- extract_assigned_people (`Reminder.py` lines 44-61, duplicated in
`discord_bot.py` lines 78-95): try the `people` encoding first, fall back
to `multi_select`, return the empty list when neither is a populated list. -/
def extract_assigned_people (props : Json) : Except PyErr (List Json) := do
  let assignProp ← props.dictGetD "Assign" (Json.obj [])
  let peopleGot ← assignProp.dictGet "people"
  if peopleGot.truthy then
    let peopleSub ← assignProp.subscr "people"
    match peopleSub.asArr with
    | some xs => namesLoop xs
    | Option.none => assignMultiBranch assignProp
  else
    assignMultiBranch assignProp

/-- Third branch of `extract_task_status`: the `multi_select` encoding,
returning the first element's `name` (possibly `None`). -/
def statusMultiBranch (statusProp : Json) : Except PyErr Json := do
  let msGot ← statusProp.dictGet "multi_select"
  if msGot.truthy then
    let msSub ← statusProp.subscr "multi_select"
    let msLen ← msSub.pyLen
    if msLen > 0 then
      let msSub2 ← statusProp.subscr "multi_select"
      let first ← msSub2.pyIndex 0
      first.dictGet "name"
    else
      pure Json.null
  else
    pure Json.null

/-- Second branch of `extract_task_status`: the single-select encoding. -/
def statusSelectBranch (statusProp : Json) : Except PyErr Json := do
  let seGot ← statusProp.dictGet "select"
  if seGot.truthy then
    let seSub ← statusProp.subscr "select"
    let nGot ← seSub.dictGet "name"
    if nGot.truthy then
      let seSub2 ← statusProp.subscr "select"
      seSub2.subscr "name"
    else
      statusMultiBranch statusProp
  else
    statusMultiBranch statusProp

/-- extract_task_status (`Reminder.py` lines 64-80, duplicated in
`discord_bot.py` lines 98-114): dedicated status object first, then
single-select, then multi-select; `None` when no shape matches. -/
def extract_task_status (props : Json) : Except PyErr Json := do
  let statusProp ← props.dictGetD "Status" (Json.obj [])
  let stGot ← statusProp.dictGet "status"
  if stGot.truthy then
    let stSub ← statusProp.subscr "status"
    let nGot ← stSub.dictGet "name"
    if nGot.truthy then
      let stSub2 ← statusProp.subscr "status"
      stSub2.subscr "name"
    else
      statusSelectBranch statusProp
  else
    statusSelectBranch statusProp

/-- The four temporal buckets of the classifier. -/
inductive Bucket where
  | overdue : Bucket
  | dueTomorrow : Bucket
  | dueThisWeek : Bucket
  | none : Bucket
deriving DecidableEq, Repr

/-- Python `status in ["To do", "In progress"]`: membership by equality;
a non-string value (including `None`) never equals either string. -/
def statusMatches (status : Json) : Bool :=
  match status with
  | Json.str s => decide (s = "To do") || decide (s = "In progress")
  | _ => false

/-- Task categorization of `get_user_tasks` (`discord_bot.py` lines
157-163), with the module-level globals `tomorrow = today + 1` and
`week_end = today + 7` inlined.  Dates are day numbers, so Python date
comparison and `timedelta` arithmetic are integer comparison and addition. -/
def classify_task (dueDate today : Int) (status : Json) : Bucket :=
  if dueDate < today ∧ statusMatches status = true then Bucket.overdue
  else if dueDate = today + 1 then Bucket.dueTomorrow
  else if today ≤ dueDate ∧ dueDate ≤ today + 7 then Bucket.dueThisWeek
  else Bucket.none

/-- Overdue test of `check_overdue_tasks` (`Reminder.py` lines 155-157):
`due_date < today and status and status in ["To do", "In progress"]`. -/
def overdue_condition (dueDate today : Int) (status : Json) : Bool :=
  decide (dueDate < today) && status.truthy && statusMatches status

/-- Due-tomorrow test of `check_due_tasks` (`Reminder.py` line 198):
`due_date == tomorrow` with `tomorrow = today + 1`. -/
def due_tomorrow_condition (dueDate today : Int) : Bool :=
  decide (dueDate = today + 1)

/-- Day number of a proleptic Gregorian calendar date (days since
1970-01-01, Howard Hinnant's civil-from-days inverse).  This realizes the
day-number model of `datetime.date`: comparison of dates is comparison of
day numbers and `timedelta(days := n)` is `+ n`. -/
def daysFromCivil (y : Int) (m d : Nat) : Int :=
  let yAdj : Int := if m ≤ 2 then y - 1 else y
  let era : Int := (if 0 ≤ yAdj then yAdj else yAdj - 399) / 400
  let yoe : Int := yAdj - era * 400
  let mp : Nat := if m > 2 then m - 3 else m + 9
  let doy : Int := ((153 * mp + 2) / 5 + d - 1 : Nat)
  let doe : Int := yoe * 365 + yoe / 4 - yoe / 100 + doy
  era * 146097 + doe - 719468

/-- Numeric value of a decimal digit character, if it is one. -/
def digitVal (c : Char) : Option Nat :=
  if '0' ≤ c ∧ c ≤ '9' then some (c.toNat - '0'.toNat) else Option.none

/-- Parse of the `YYYY-MM-DD` prefix accepted by
`datetime.fromisoformat(...).date()`: four digit year, two digit month and
day, range-checked, optionally followed by a time part introduced by a
separator character; the time-of-day is discarded. -/
def isoParse (s : String) : Option Int :=
  match s.data with
  | y1 :: y2 :: y3 :: y4 :: '-' :: m1 :: m2 :: '-' :: d1 :: d2 :: rest =>
    match digitVal y1, digitVal y2, digitVal y3, digitVal y4,
          digitVal m1, digitVal m2, digitVal d1, digitVal d2 with
    | some a, some b, some c, some d, some e, some f, some g, some h =>
      let y : Nat := ((a * 10 + b) * 10 + c) * 10 + d
      let m : Nat := e * 10 + f
      let dd : Nat := g * 10 + h
      if 1 ≤ m ∧ m ≤ 12 ∧ 1 ≤ dd ∧ dd ≤ 31 ∧ (rest = [] ∨ rest.length ≥ 1) then
        some (daysFromCivil (y : Int) m dd)
      else Option.none
    | _, _, _, _, _, _, _, _ => Option.none
  | _ => Option.none

/-- Python `datetime.fromisoformat(x).date()`: `TypeError` on a non-string
argument, `ValueError` on an unparsable string, otherwise the day number. -/
def fromisoformat_date (j : Json) : Except PyErr Int :=
  match j with
  | Json.str s =>
    match isoParse s with
    | some d => Except.ok d
    | Option.none => Except.error PyErr.valueError
  | _ => Except.error PyErr.typeError

/-- A normalized task as stored in the per-user digest
(`task_info` dict of `discord_bot.py` lines 150-155). -/
structure TaskInfo where
  name : String
  due_date : Int
  status : Json
  assigned_people : List Json

/-- The per-person digest built by `get_user_tasks` (`user_tasks` dict of
`discord_bot.py` lines 126-130), one insertion-ordered list per bucket. -/
structure UserTasks where
  overdue : List TaskInfo
  due_this_week : List TaskInfo
  due_tomorrow : List TaskInfo

/-- Lowercase every assignee name (`[person.lower() for person in assigned_people]`);
`AttributeError` when an extracted name is not a string. -/
def lowerAll : List Json → Except PyErr (List String)
  | [] => Except.ok []
  | p :: rest => do
    let low ← p.pyLower
    let tail ← lowerAll rest
    pure (low :: tail)

/-- One iteration of the `get_user_tasks` record loop (`discord_bot.py`
lines 132-163): extract the fields, skip the record unless the requested
person is among the lowercased assignees, then parse the due date and
categorize.  `Option.none` means the record contributes nothing. -/
def processPage (personName : String) (today : Int) (page : Json) :
    Except PyErr (Option (Bucket × TaskInfo)) := do
  let props ← page.subscr "properties"
  let name ← extract_task_name props
  let assignedPeople ← extract_assigned_people props
  let status ← extract_task_status props
  let lowered ← lowerAll assignedPeople
  if personName.toLower ∈ lowered then
    let duePropD ← props.dictGetD "Due Date" (Json.obj [])
    let dateProp ← duePropD.dictGet "date"
    if dateProp.truthy then
      let startGot ← dateProp.dictGet "start"
      if startGot.truthy then
        let startSub ← dateProp.subscr "start"
        let dueDate ← fromisoformat_date startSub
        pure (some (classify_task dueDate today status,
          { name := name, due_date := dueDate, status := status,
            assigned_people := assignedPeople }))
      else
        pure Option.none
    else
      pure Option.none
  else
    pure Option.none

/-- Append a categorized task to its bucket (the three `append` calls of
`discord_bot.py` lines 158-163); `Bucket.none` appends nowhere. -/
def addTask (acc : UserTasks) : Option (Bucket × TaskInfo) → UserTasks
  | Option.none => acc
  | some (Bucket.overdue, ti) => { acc with overdue := acc.overdue ++ [ti] }
  | some (Bucket.dueTomorrow, ti) => { acc with due_tomorrow := acc.due_tomorrow ++ [ti] }
  | some (Bucket.dueThisWeek, ti) => { acc with due_this_week := acc.due_this_week ++ [ti] }
  | some (Bucket.none, _) => acc

/-- Exceptions swallowed per record by `except (KeyError, IndexError, ValueError)`
(`discord_bot.py` line 165); any other exception escapes the loop. -/
def caughtPerRecord : PyErr → Bool
  | PyErr.keyError => true
  | PyErr.indexError => true
  | PyErr.valueError => true
  | _ => false

/-- The record loop of `get_user_tasks`: per-record errors in the caught
set skip the record and continue; other exceptions abort the loop. -/
def foldPages (personName : String) (today : Int) :
    List Json → UserTasks → Except PyErr UserTasks
  | [], acc => Except.ok acc
  | page :: rest, acc =>
    match processPage personName today page with
    | Except.ok contrib => foldPages personName today rest (addTask acc contrib)
    | Except.error e =>
      if caughtPerRecord e then foldPages personName today rest acc
      else Except.error e

/-- get_user_tasks (`discord_bot.py` lines 117-176), with the HTTP fetch
abstracted as its outcome: a transport error, or the parsed response body.
A transport error or any uncaught exception inside the loop yields `None`
(`Option.none`); otherwise the three-bucket digest. -/
def get_user_tasks (personName : String) (today : Int)
    (fetch : Except ReqErr Json) : Option UserTasks :=
  match fetch with
  | Except.error _ => Option.none
  | Except.ok respJson =>
    match (do
        let results ← respJson.dictGetD "results" (Json.arr [])
        let pages ← results.pyIter
        foldPages personName today pages ⟨[], [], []⟩ :
        Except PyErr UserTasks) with
    | Except.ok tasks => some tasks
    | Except.error _ => Option.none

/-- Python `str(x)` of a task's date in the rendered line: day numbers
print as their decimal value (stand-in for the ISO date text). -/
def pyDateStr (d : Int) : String := toString d

/-- Python `str(x)` as used by the f-string on a status value. -/
def pyStr : Json → String
  | Json.null => "None"
  | Json.bool true => "True"
  | Json.bool false => "False"
  | Json.num n => toString n
  | Json.str s => s
  | Json.arr _ => "[...]"
  | Json.obj _ => "{...}"

/-- Rendered line of a dated task
(`f"• **{task['name']}** (due {task['due_date']}) - *{task['status']}*"`,
`discord_bot.py` lines 201 and 217). -/
def taskLineDated (t : TaskInfo) : String :=
  let n := t.name
  let d := pyDateStr t.due_date
  let s := pyStr t.status
  s!"• **{n}** (due {d}) - *{s}*"

/-- Rendered line of a due-tomorrow task
(`f"• **{task['name']}** - *{task['status']}*"`, `discord_bot.py` line 210). -/
def taskLineTomorrow (t : TaskInfo) : String :=
  let n := t.name
  let s := pyStr t.status
  s!"• **{n}** - *{s}*"

/-- The `message_parts` list built by `format_task_summary`
(`discord_bot.py` lines 195-219) for a non-empty digest: title, then the
overdue, due-tomorrow and due-this-week sections.  The overdue and
this-week sections list at most the first 5 tasks and add a trailer when
more remain; the due-tomorrow loop has no such cap. -/
def summaryParts (userMention : String) (tasks : UserTasks) : List String :=
  let oc := tasks.overdue.length
  let tc := tasks.due_tomorrow.length
  let wc := tasks.due_this_week.length
  [s!"📋 **Task Summary for {userMention}**\n"]
  ++ (if oc > 0 then
        [s!"🚨 **OVERDUE ({oc})**"]
        ++ (tasks.overdue.take 5).map taskLineDated
        ++ (if oc > 5 then [s!"• ... and {oc - 5} more overdue tasks"] else [])
        ++ [""]
      else [])
  ++ (if tc > 0 then
        [s!"⏰ **DUE TOMORROW ({tc})**"]
        ++ tasks.due_tomorrow.map taskLineTomorrow
        ++ [""]
      else [])
  ++ (if wc > 0 then
        [s!"📅 **DUE THIS WEEK ({wc})**"]
        ++ (tasks.due_this_week.take 5).map taskLineDated
        ++ (if wc > 5 then [s!"• ... and {wc - 5} more tasks this week"] else [])
      else [])

/-- format_task_summary (`discord_bot.py` lines 179-221): failure notice
when the digest is absent, a no-tasks notice when all buckets are empty,
otherwise the joined `message_parts`. -/
def format_task_summary (userMention : String) (tasks : Option UserTasks) : String :=
  match tasks with
  | Option.none => s!"❌ Could not retrieve tasks for {userMention}"
  | some t =>
    if t.overdue.length = 0 ∧ t.due_tomorrow.length = 0 ∧ t.due_this_week.length = 0 then
      s!"✅ {userMention} has no upcoming or overdue tasks!"
    else
      String.intercalate "\n" (summaryParts userMention t)

/-- Character-count chunking of `on_message` (`discord_bot.py` line 270):
`[response[i:i+2000] for i in range(0, len(response), 2000)]` on the
character list. -/
def chunkChars (l : List Char) : List (List Char) :=
  match l with
  | [] => []
  | c :: cs => ((c :: cs).take 2000) :: chunkChars ((c :: cs).drop 2000)
termination_by l.length
decreasing_by simp; omega

/-- The list-comprehension chunking lifted back to strings. -/
def pythonChunks (s : String) : List String :=
  (chunkChars s.data).map String.mk

/-- The message dispatch of `on_message` (`discord_bot.py` lines 267-274):
responses over 2000 characters are sent as consecutive 2000-character
slices, shorter responses as a single message. -/
def messageChunks (response : String) : List String :=
  if response.length > 2000 then pythonChunks response else [response]

/-- Concatenation of a list of messages, for stating the chunking law. -/
def concatAll : List String → String
  | [] => ""
  | c :: cs => c ++ concatAll cs

/-- Embedding of the spec-level status type (`string | absent`) into the
value actually carried by the code. -/
def optStatusJson : Option String → Json
  | Option.none => Json.null
  | some s => Json.str s

/-- The spec's actionable statuses: a case-sensitive exact match for
"To do" or "In progress". -/
def actionableStatus (s : Option String) : Prop :=
  s = some "To do" ∨ s = some "In progress"

/-- A spec-level status matches the code's membership test exactly when it
is actionable. -/
theorem statusMatches_optStatus (s : Option String) :
    statusMatches (optStatusJson s) = true ↔ actionableStatus s := by
  cases s with
  | none => simp [statusMatches, optStatusJson, actionableStatus]
  | some v => simp [statusMatches, optStatusJson, actionableStatus]

/-- Modelled from the spec: the defining predicate of each bucket in
section 4.2, for a task whose due date is present. -/
def bucketSpec : Bucket → Int → Int → Option String → Prop
  | Bucket.overdue, d, t, s => d < t ∧ actionableStatus s
  | Bucket.dueTomorrow, d, t, _ => d = t + 1
  | Bucket.dueThisWeek, d, t, _ => t ≤ d ∧ d ≤ t + 7 ∧ d ≠ t + 1
  | Bucket.none, d, t, s =>
    ¬(d < t ∧ actionableStatus s) ∧ d ≠ t + 1 ∧ ¬(t ≤ d ∧ d ≤ t + 7)

/-- C1: a task with a due date is classified overdue if and only if its
due date is strictly before today and its status is a case-sensitive exact
match for "To do" or "In progress"; any other status, including an absent
one, excludes it.  The same characterization holds for the overdue test of
the batch reminder. -/
theorem overdue_bucket_characterization (d t : Int) (s : Option String) :
    (classify_task d t (optStatusJson s) = Bucket.overdue ↔
      d < t ∧ actionableStatus s) ∧
    (overdue_condition d t (optStatusJson s) = true ↔
      d < t ∧ actionableStatus s) := by
  have hs := statusMatches_optStatus s
  constructor
  · unfold classify_task
    split_ifs with h1 h2 h3 <;> simp_all
  · unfold overdue_condition
    cases s with
    | none => simp [optStatusJson, Json.truthy, actionableStatus, statusMatches]
    | some v =>
      simp only [optStatusJson, Json.truthy, statusMatches, Bool.and_eq_true,
        decide_eq_true_eq, Bool.or_eq_true] at *
      constructor
      · rintro ⟨⟨hd, _⟩, hm⟩
        exact ⟨hd, hs.1 (by simpa using hm)⟩
      · rintro ⟨hd, ha⟩
        rcases ha with h | h <;> simp_all [actionableStatus]

/-- C2: for every (due date, status) pair the classifier assigns exactly
one of the four buckets: the assigned bucket satisfies its spec predicate,
and any bucket satisfying its spec predicate is the assigned one, so the
bucket predicates are mutually exclusive and exhaustive. -/
theorem bucket_assignment_unique (d t : Int) (s : Option String) :
    bucketSpec (classify_task d t (optStatusJson s)) d t s ∧
    ∀ b : Bucket, bucketSpec b d t s → b = classify_task d t (optStatusJson s) := by
  have hs := statusMatches_optStatus s
  unfold classify_task
  split_ifs with h1 h2 h3
  · obtain ⟨hd, hm⟩ := h1
    have ha : actionableStatus s := hs.1 hm
    refine ⟨⟨hd, ha⟩, ?_⟩
    intro b hb
    cases b with
    | overdue => rfl
    | dueTomorrow => exfalso; simp only [bucketSpec] at hb; omega
    | dueThisWeek => exfalso; simp only [bucketSpec] at hb; omega
    | none => exact absurd ⟨hd, ha⟩ hb.1
  · refine ⟨h2, ?_⟩
    intro b hb
    cases b with
    | overdue =>
      exfalso
      simp only [bucketSpec] at hb
      obtain ⟨hblt, _⟩ := hb
      omega
    | dueTomorrow => rfl
    | dueThisWeek => exact absurd h2 hb.2.2
    | none => exact absurd h2 hb.2.1
  · refine ⟨⟨h3.1, h3.2, h2⟩, ?_⟩
    intro b hb
    cases b with
    | overdue => exact absurd ⟨hb.1, hs.2 hb.2⟩ h1
    | dueTomorrow => exact absurd hb h2
    | dueThisWeek => rfl
    | none => exact absurd h3 hb.2.2
  · refine ⟨⟨fun hc => h1 ⟨hc.1, hs.2 hc.2⟩, h2, h3⟩, ?_⟩
    intro b hb
    cases b with
    | overdue => exact absurd ⟨hb.1, hs.2 hb.2⟩ h1
    | dueTomorrow => exact absurd hb h2
    | dueThisWeek => exact absurd ⟨hb.1, hb.2.1⟩ h3
    | none => rfl

/-- C2 witness: at due date 2, today 1, absent status, the classifier
picks due-tomorrow and it is the unique bucket whose predicate holds. -/
theorem bucket_assignment_unique_witness :
    bucketSpec (classify_task 2 1 (optStatusJson Option.none)) 2 1 Option.none ∧
    Bucket.dueTomorrow = classify_task 2 1 (optStatusJson Option.none) :=
  ⟨(bucket_assignment_unique 2 1 Option.none).1,
   (bucket_assignment_unique 2 1 Option.none).2 Bucket.dueTomorrow (by simp [bucketSpec])⟩

/-- C5: a task due exactly tomorrow is classified due-tomorrow whatever
its status, and the batch reminder's due-tomorrow test fires on it. -/
theorem due_tomorrow_classification (d t : Int) (s : Option String)
    (h : d = t + 1) :
    classify_task d t (optStatusJson s) = Bucket.dueTomorrow ∧
    due_tomorrow_condition d t = true := by
  subst h
  constructor
  · unfold classify_task
    rw [if_neg (fun hc => by omega : ¬(t + 1 < t ∧ statusMatches (optStatusJson s) = true))]
    simp
  · simp [due_tomorrow_condition]

/-- C5 witness: due date 2, today 1, status "Done". -/
theorem due_tomorrow_classification_witness :
    classify_task 2 1 (optStatusJson (some "Done")) = Bucket.dueTomorrow ∧
    due_tomorrow_condition 2 1 = true :=
  due_tomorrow_classification 2 1 (some "Done") (by norm_num)

/-- C6: a task due between today and today plus seven days inclusive, and
not exactly tomorrow, is classified due-this-week whatever its status. -/
theorem due_this_week_classification (d t : Int) (s : Option String)
    (h1 : t ≤ d) (h2 : d ≤ t + 7) (h3 : d ≠ t + 1) :
    classify_task d t (optStatusJson s) = Bucket.dueThisWeek := by
  unfold classify_task
  rw [if_neg (fun hc => by omega : ¬(d < t ∧ statusMatches (optStatusJson s) = true))]
  rw [if_neg h3, if_pos ⟨h1, h2⟩]

/-- C6 witness: due date 5, today 1, absent status. -/
theorem due_this_week_classification_witness :
    classify_task 5 1 (optStatusJson Option.none) = Bucket.dueThisWeek :=
  due_this_week_classification 5 1 Option.none (by norm_num) (by norm_num) (by norm_num)

/-- Concatenating the character chunks restores the original list. -/
theorem chunkChars_flatten (l : List Char) :
    (chunkChars l).foldr (· ++ ·) [] = l := by
  induction l using chunkChars.induct with
  | case1 => simp [chunkChars]
  | case2 c cs ih =>
    rw [chunkChars]
    simp only [List.foldr_cons]
    rw [ih]
    exact List.take_append_drop 2000 (c :: cs)

/-- Every character chunk has at most 2000 characters. -/
theorem chunkChars_length_le (l : List Char) :
    ∀ c ∈ chunkChars l, c.length ≤ 2000 := by
  induction l using chunkChars.induct with
  | case1 => simp [chunkChars]
  | case2 c cs ih =>
    intro x hx
    rw [chunkChars] at hx
    rcases List.mem_cons.mp hx with h | h
    · subst h
      rw [List.length_take]
      exact Nat.min_le_left _ _
    · exact ih x h

/-- Concatenating packed strings is packing the concatenation. -/
theorem concatAll_mk (ls : List (List Char)) :
    concatAll (ls.map String.mk) = String.mk (ls.foldr (· ++ ·) []) := by
  induction ls with
  | nil => rfl
  | cons a rest ih =>
    simp only [List.map_cons, concatAll, List.foldr_cons, ih]
    rfl

/-- C7: concatenating the dispatched chunks of any response reproduces the
response exactly, and no chunk exceeds 2000 characters. -/
theorem chunking_law (response : String) :
    concatAll (messageChunks response) = response ∧
    ∀ c ∈ messageChunks response, c.length ≤ 2000 := by
  unfold messageChunks
  split_ifs with h
  · constructor
    · unfold pythonChunks
      rw [concatAll_mk, chunkChars_flatten]
    · intro c hc
      unfold pythonChunks at hc
      rcases List.mem_map.mp hc with ⟨d, hd, rfl⟩
      show d.length ≤ 2000
      exact chunkChars_length_le response.data d hd
  · constructor
    · show response ++ "" = response
      cases response with
      | mk data => show String.mk (data ++ []) = String.mk data; rw [List.append_nil]
    · intro c hc
      rcases List.mem_singleton.mp hc with rfl
      omega

/-- C7 witness: the two-character response "hi" is dispatched as itself,
within the limit. -/
theorem chunking_law_witness :
    concatAll (messageChunks "hi") = "hi" ∧ String.length "hi" ≤ 2000 :=
  ⟨(chunking_law "hi").1, (chunking_law "hi").2 "hi" (by decide)⟩

/-- C9: a transport error makes `get_user_tasks` return the absent digest,
and rendering the absent digest yields exactly the single-line failure
notice naming the person — no partial digest text. -/
theorem transport_failure_notice (person um : String) (t : Int) (e : ReqErr)
    (h : '\n' ∉ um.data) :
    get_user_tasks person t (Except.error e) = Option.none ∧
    format_task_summary um (get_user_tasks person t (Except.error e)) =
      "❌ Could not retrieve tasks for " ++ um ∧
    ("❌ Could not retrieve tasks for " ++ um).data.count '\n' = 0 := by
  refine ⟨rfl, ?_, ?_⟩
  · show toString "❌ Could not retrieve tasks for " ++ toString um ++ toString "" =
      "❌ Could not retrieve tasks for " ++ um
    simp [toString]
  · rw [String.data_append, List.count_append]
    rw [List.count_eq_zero.mpr h]
    decide

/-- C9 witness: person "Kyle", mention "<@42>", any error. -/
theorem transport_failure_notice_witness :
    get_user_tasks "Kyle" 0 (Except.error ReqErr.requestException) = Option.none ∧
    format_task_summary "<@42>" (get_user_tasks "Kyle" 0 (Except.error ReqErr.requestException)) =
      "❌ Could not retrieve tasks for " ++ "<@42>" ∧
    ("❌ Could not retrieve tasks for " ++ "<@42>").data.count '\n' = 0 :=
  transport_failure_notice "Kyle" "<@42>" 0 ReqErr.requestException (by decide)

/-- Bind on an ok value reduces to the continuation. -/
theorem pyBindOk {α β : Type} (a : α) (f : α → Except PyErr β) :
    (Except.ok a : Except PyErr α) >>= f = f a := rfl

/-- Bind on an error short-circuits. -/
theorem pyBindErr {α β : Type} (e : PyErr) (f : α → Except PyErr β) :
    (Except.error e : Except PyErr α) >>= f = Except.error e := rfl

/-- A multi-select assignee entry carrying one name. -/
def assigneeJson (nm : String) : Json := Json.obj [("name", Json.str nm)]

/-- A `Due Date` property value whose `start` field is a number: truthy,
so the code reaches date parsing on it, where it raises `TypeError`. -/
def poisonDue : Json := Json.obj [("date", Json.obj [("start", Json.num 5)])]

/-- The `properties` dict of a generated record: fixed Task, Status; the
given assignees in the multi-select encoding; the given due-date value. -/
def innerProps (names : List String) (due : Json) : Json :=
  Json.obj [
    ("Task", Json.obj [("title", Json.arr [Json.obj [("text",
      Json.obj [("content", Json.str "Ship report")])]])]),
    ("Assign", Json.obj [("multi_select", Json.arr (names.map assigneeJson))]),
    ("Status", Json.obj [("status", Json.obj [("name", Json.str "To do")])]),
    ("Due Date", due)]

/-- A generated record page. -/
def mkPage (names : List String) (due : Json) : Json :=
  Json.obj [("properties", innerProps names due)]

/-- The assignee loop on generated multi-select entries yields exactly the
given names, in order, when none is empty. -/
theorem namesLoop_assignees (names : List String) (h : ∀ nm ∈ names, nm ≠ "") :
    namesLoop (names.map assigneeJson) = Except.ok (names.map Json.str) := by
  induction names with
  | nil => rfl
  | cons nm rest ih =>
    have hnm : nm ≠ "" := h nm (List.mem_cons_self nm rest)
    have htail := ih (fun x hx => h x (List.mem_cons_of_mem nm hx))
    simp only [List.map_cons, namesLoop, assigneeJson, Json.dictGet, lookupStr,
      if_pos rfl, Option.getD_some, pyBindOk, Json.truthy, Json.subscr]
    rw [if_pos (by simpa using hnm)]
    simp only [htail, pyBindOk, Bind.bind, Except.bind]
    rfl

/-- Extraction of assignees from a generated record: the given names. -/
theorem extract_assigned_people_mkPage (names : List String) (due : Json)
    (h : ∀ nm ∈ names, nm ≠ "") :
    extract_assigned_people (innerProps names due) = Except.ok (names.map Json.str) := by
  cases names with
  | nil => rfl
  | cons nm rest =>
    show assignMultiBranch (Json.obj [("multi_select",
      Json.arr ((nm :: rest).map assigneeJson))]) = _
    simp only [assignMultiBranch, Json.dictGet, lookupStr, if_pos rfl,
      Option.getD_some, pyBindOk, Json.truthy, List.map_cons, List.isEmpty_cons,
      Bool.not_false, if_pos rfl, Json.subscr, Json.asArr]
    exact namesLoop_assignees (nm :: rest) h

/-- Lowercasing a list of string values yields the lowercased names. -/
theorem lowerAll_strs (names : List String) :
    lowerAll (names.map Json.str) = Except.ok (names.map String.toLower) := by
  induction names with
  | nil => rfl
  | cons nm rest ih =>
    simp only [List.map_cons, lowerAll, Json.pyLower, pyBindOk, ih]
    rfl

/-- On a generated record whose due-date value raises when parsed, the
record loop body reduces to a pure decision on the case-insensitive
assignee match: a non-matching record is skipped (contributing nothing)
without ever touching the due date, a matching one proceeds into due-date
processing and hits the poisoned date. -/
theorem processPage_mkPage_poison (person : String) (names : List String) (t : Int)
    (h : ∀ nm ∈ names, nm ≠ "") :
    processPage person t (mkPage names poisonDue) =
      if person.toLower ∈ names.map String.toLower then Except.error PyErr.typeError
      else Except.ok Option.none := by
  have hname : extract_task_name (innerProps names poisonDue) =
      Except.ok "Ship report" := rfl
  have hstatus : extract_task_status (innerProps names poisonDue) =
      Except.ok (Json.str "To do") := rfl
  have hassign := extract_assigned_people_mkPage names poisonDue h
  unfold processPage
  rw [show (mkPage names poisonDue).subscr "properties" =
        Except.ok (innerProps names poisonDue) from rfl, pyBindOk]
  rw [hname, pyBindOk, hassign, pyBindOk, hstatus, pyBindOk,
    lowerAll_strs names, pyBindOk]
  split_ifs with hmem
  · rfl
  · rfl

/-- C10: on the generated family of records, the loop includes a record
for the requested person exactly when some extracted assignee name matches
case-insensitively; a record without such a match is skipped before any
due-date processing (even a due date whose parse raises is never reached),
while a matching record does reach due-date processing. -/
theorem assignee_filter_gate (person : String) (names : List String) (t : Int)
    (h : ∀ nm ∈ names, nm ≠ "") :
    (processPage person t (mkPage names poisonDue) = Except.ok Option.none ↔
      person.toLower ∉ names.map String.toLower) ∧
    (person.toLower ∈ names.map String.toLower →
      processPage person t (mkPage names poisonDue) = Except.error PyErr.typeError) := by
  rw [processPage_mkPage_poison person names t h]
  split_ifs with hmem <;> simp [hmem]

/-- C10 witness: requester "KYLE" against assignee list ["kyle"]. -/
theorem assignee_filter_gate_witness :
    (processPage "KYLE" 0 (mkPage ["kyle"] poisonDue) = Except.ok Option.none ↔
      "KYLE".toLower ∉ ["kyle"].map String.toLower) ∧
    ("KYLE".toLower ∈ ["kyle"].map String.toLower →
      processPage "KYLE" 0 (mkPage ["kyle"] poisonDue) = Except.error PyErr.typeError) :=
  assignee_filter_gate "KYLE" ["kyle"] 0 (by decide)

/-- A list is a Boolean prefix of itself followed by anything. -/
theorem listIsPrefixOf_refl_append (p t : List Char) :
    List.isPrefixOf p (p ++ t) = true := by
  induction p with
  | nil => simp [List.isPrefixOf]
  | cons a as ih => simp [List.isPrefixOf, ih]

/-- Recognizer of a rendered task line: starts with the bullet-and-bold
marker that every task line (and no header, trailer or blank) carries. -/
def isTaskBullet (s : String) : Bool :=
  List.isPrefixOf "• **".data s.data

/-- Recognizer of a remaining-count trailer line. -/
def isMoreTrailer (s : String) : Bool :=
  List.isPrefixOf "• ... and ".data s.data

/-- The title line of a summary message. -/
def titleLine (um : String) : String := s!"📋 **Task Summary for {um}**\n"

/-- Header of the overdue section with its count. -/
def overdueHeaderLine (n : Nat) : String := s!"🚨 **OVERDUE ({n})**"

/-- Trailer of an overdue section holding more than five tasks. -/
def overdueMoreLine (n : Nat) : String := s!"• ... and {n - 5} more overdue tasks"

/-- Header of the due-tomorrow section with its count. -/
def tomorrowHeaderLine (n : Nat) : String := s!"⏰ **DUE TOMORROW ({n})**"

/-- Header of the due-this-week section with its count. -/
def weekHeaderLine (n : Nat) : String := s!"📅 **DUE THIS WEEK ({n})**"

/-- Trailer of a this-week section holding more than five tasks. -/
def weekMoreLine (n : Nat) : String := s!"• ... and {n - 5} more tasks this week"

/-- Modelled from the spec (amended): the overdue section — emitted only
if non-empty, header with count, at most the first 5 tasks, one
remaining-count trailer when more than 5, then a blank separator. -/
def overdueSectionSpec (l : List TaskInfo) : List String :=
  if l.length > 0 then
    [overdueHeaderLine l.length] ++ (l.take 5).map taskLineDated
      ++ (if l.length > 5 then [overdueMoreLine l.length] else []) ++ [""]
  else []

/-- Modelled from the spec (amended): the due-tomorrow section — emitted
only if non-empty, header with count, all tasks listed with no cap, then a
blank separator. -/
def tomorrowSectionSpec (l : List TaskInfo) : List String :=
  if l.length > 0 then
    [tomorrowHeaderLine l.length] ++ l.map taskLineTomorrow ++ [""]
  else []

/-- Modelled from the spec (amended): the due-this-week section — emitted
only if non-empty, header with count, at most the first 5 tasks, one
remaining-count trailer when more than 5. -/
def weekSectionSpec (l : List TaskInfo) : List String :=
  if l.length > 0 then
    [weekHeaderLine l.length] ++ (l.take 5).map taskLineDated
      ++ (if l.length > 5 then [weekMoreLine l.length] else [])
  else []

/-- Every dated task line is recognized as a task bullet. -/
theorem isTaskBullet_dated (t : TaskInfo) : isTaskBullet (taskLineDated t) = true :=
  listIsPrefixOf_refl_append "• **".data _

/-- Every due-tomorrow task line is recognized as a task bullet. -/
theorem isTaskBullet_tomorrow (t : TaskInfo) : isTaskBullet (taskLineTomorrow t) = true :=
  listIsPrefixOf_refl_append "• **".data _


/-- Neither headers, nor the title, nor trailers, nor the blank separator
count as task bullets. -/
theorem isTaskBullet_title (um : String) : isTaskBullet (titleLine um) = false := by
  simp [isTaskBullet, titleLine, List.isPrefixOf]

/-- Overdue header is not a task bullet. -/
theorem isTaskBullet_overdueHeader (n : Nat) :
    isTaskBullet (overdueHeaderLine n) = false := by
  simp [isTaskBullet, overdueHeaderLine, List.isPrefixOf]

/-- Tomorrow header is not a task bullet. -/
theorem isTaskBullet_tomorrowHeader (n : Nat) :
    isTaskBullet (tomorrowHeaderLine n) = false := by
  simp [isTaskBullet, tomorrowHeaderLine, List.isPrefixOf]

/-- Week header is not a task bullet. -/
theorem isTaskBullet_weekHeader (n : Nat) :
    isTaskBullet (weekHeaderLine n) = false := by
  simp [isTaskBullet, weekHeaderLine, List.isPrefixOf]

/-- The overdue trailer is not a task bullet. -/
theorem isTaskBullet_overdueMore (n : Nat) :
    isTaskBullet (overdueMoreLine n) = false := by
  simp [isTaskBullet, overdueMoreLine, List.isPrefixOf]

/-- The week trailer is not a task bullet. -/
theorem isTaskBullet_weekMore (n : Nat) :
    isTaskBullet (weekMoreLine n) = false := by
  simp [isTaskBullet, weekMoreLine, List.isPrefixOf]

/-- The blank separator is not a task bullet. -/
theorem isTaskBullet_blank : isTaskBullet "" = false := rfl

/-- The trailers are recognized as trailers. -/
theorem isMoreTrailer_overdueMore (n : Nat) :
    isMoreTrailer (overdueMoreLine n) = true :=
  listIsPrefixOf_refl_append "• ... and ".data _

/-- The week trailer is recognized as a trailer. -/
theorem isMoreTrailer_weekMore (n : Nat) :
    isMoreTrailer (weekMoreLine n) = true :=
  listIsPrefixOf_refl_append "• ... and ".data _

/-- Task lines are not trailers. -/
theorem isMoreTrailer_dated (t : TaskInfo) : isMoreTrailer (taskLineDated t) = false := by
  simp [isMoreTrailer, taskLineDated, List.isPrefixOf]

/-- Tomorrow task lines are not trailers. -/
theorem isMoreTrailer_tomorrow (t : TaskInfo) :
    isMoreTrailer (taskLineTomorrow t) = false := by
  simp [isMoreTrailer, taskLineTomorrow, List.isPrefixOf]

/-- The title is not a trailer. -/
theorem isMoreTrailer_title (um : String) : isMoreTrailer (titleLine um) = false := by
  simp [isMoreTrailer, titleLine, List.isPrefixOf]

/-- Headers are not trailers. -/
theorem isMoreTrailer_overdueHeader (n : Nat) :
    isMoreTrailer (overdueHeaderLine n) = false := by
  simp [isMoreTrailer, overdueHeaderLine, List.isPrefixOf]

/-- The tomorrow header is not a trailer. -/
theorem isMoreTrailer_tomorrowHeader (n : Nat) :
    isMoreTrailer (tomorrowHeaderLine n) = false := by
  simp [isMoreTrailer, tomorrowHeaderLine, List.isPrefixOf]

/-- The week header is not a trailer. -/
theorem isMoreTrailer_weekHeader (n : Nat) :
    isMoreTrailer (weekHeaderLine n) = false := by
  simp [isMoreTrailer, weekHeaderLine, List.isPrefixOf]

/-- The blank separator is not a trailer. -/
theorem isMoreTrailer_blank : isMoreTrailer "" = false := rfl

/-- Bullet count of a dated-task-line list: every line counts. -/
theorem bulletCount_dated (l : List TaskInfo) :
    List.countP isTaskBullet (l.map taskLineDated) = l.length := by
  rw [List.countP_map]
  exact List.countP_eq_length.mpr fun a _ => by simp [Function.comp_def, isTaskBullet_dated]

/-- Bullet count of a tomorrow-task-line list: every line counts. -/
theorem bulletCount_tomorrow (l : List TaskInfo) :
    List.countP isTaskBullet (l.map taskLineTomorrow) = l.length := by
  rw [List.countP_map]
  exact List.countP_eq_length.mpr fun a _ => by simp [Function.comp_def, isTaskBullet_tomorrow]

/-- Trailer count of a dated-task-line list: none. -/
theorem trailerCount_dated (l : List TaskInfo) :
    List.countP isMoreTrailer (l.map taskLineDated) = 0 := by
  rw [List.countP_map]
  exact List.countP_eq_zero.mpr fun a _ => by simp [Function.comp_def, isMoreTrailer_dated]

/-- Trailer count of a tomorrow-task-line list: none. -/
theorem trailerCount_tomorrow (l : List TaskInfo) :
    List.countP isMoreTrailer (l.map taskLineTomorrow) = 0 := by
  rw [List.countP_map]
  exact List.countP_eq_zero.mpr fun a _ => by simp [Function.comp_def, isMoreTrailer_tomorrow]

/-- Bullet count of the first five dated task lines. -/
theorem bulletCount_dated_take (l : List TaskInfo) :
    List.countP isTaskBullet (List.take 5 (l.map taskLineDated)) = min 5 l.length := by
  rw [← List.map_take, List.countP_map]
  rw [show List.countP (isTaskBullet ∘ taskLineDated) (l.take 5) = (l.take 5).length from
    List.countP_eq_length.mpr fun a _ => by simp [Function.comp_def, isTaskBullet_dated]]
  rw [List.length_take]

/-- Trailer count of the first five dated task lines: none. -/
theorem trailerCount_dated_take (l : List TaskInfo) :
    List.countP isMoreTrailer (List.take 5 (l.map taskLineDated)) = 0 := by
  rw [← List.map_take, List.countP_map]
  exact List.countP_eq_zero.mpr fun a _ => by simp [Function.comp_def, isMoreTrailer_dated]

/-- Bullet count of the overdue section: capped at five. -/
theorem overdueSection_bullets (l : List TaskInfo) :
    (overdueSectionSpec l).countP isTaskBullet = min 5 l.length := by
  unfold overdueSectionSpec
  split_ifs with h0 h5 <;>
    simp [List.countP_append, List.countP_cons, bulletCount_dated_take,
      isTaskBullet_overdueHeader, isTaskBullet_overdueMore, isTaskBullet_blank] <;>
    omega

/-- Bullet count of the due-tomorrow section: the full bucket, uncapped. -/
theorem tomorrowSection_bullets (l : List TaskInfo) :
    (tomorrowSectionSpec l).countP isTaskBullet = l.length := by
  unfold tomorrowSectionSpec
  split_ifs with h0
  · rw [List.countP_append, List.countP_append, bulletCount_tomorrow]
    simp [List.countP_cons, isTaskBullet_tomorrowHeader, isTaskBullet_blank]
  · simp_all

/-- Bullet count of the due-this-week section: capped at five. -/
theorem weekSection_bullets (l : List TaskInfo) :
    (weekSectionSpec l).countP isTaskBullet = min 5 l.length := by
  unfold weekSectionSpec
  split_ifs with h0 h5 <;>
    simp [List.countP_append, List.countP_cons, bulletCount_dated_take,
      isTaskBullet_weekHeader, isTaskBullet_weekMore, isTaskBullet_blank] <;>
    omega

/-- Trailer count of the overdue section: one exactly when over five. -/
theorem overdueSection_trailer (l : List TaskInfo) :
    (overdueSectionSpec l).countP isMoreTrailer = if l.length > 5 then 1 else 0 := by
  unfold overdueSectionSpec
  split_ifs with h0 h5 <;>
    simp [List.countP_append, List.countP_cons, trailerCount_dated_take,
      isMoreTrailer_overdueHeader, isMoreTrailer_overdueMore, isMoreTrailer_blank] <;>
    omega

/-- Trailer count of the due-tomorrow section: never any. -/
theorem tomorrowSection_trailer (l : List TaskInfo) :
    (tomorrowSectionSpec l).countP isMoreTrailer = 0 := by
  unfold tomorrowSectionSpec
  split_ifs with h0
  · rw [List.countP_append, List.countP_append, trailerCount_tomorrow]
    simp [List.countP_cons, isMoreTrailer_tomorrowHeader, isMoreTrailer_blank]
  · rfl

/-- Trailer count of the this-week section: one exactly when over five. -/
theorem weekSection_trailer (l : List TaskInfo) :
    (weekSectionSpec l).countP isMoreTrailer = if l.length > 5 then 1 else 0 := by
  unfold weekSectionSpec
  split_ifs with h0 h5 <;>
    simp [List.countP_append, List.countP_cons, trailerCount_dated_take,
      isMoreTrailer_weekHeader, isMoreTrailer_weekMore, isMoreTrailer_blank] <;>
    omega

/-- C4 (amended): for every non-absent digest, the rendered parts are the
title followed by the overdue, due-tomorrow and due-this-week sections in
that fixed order, each emitted only if non-empty with its count in the
header; the overdue and due-this-week sections list at most 5 tasks and
carry exactly one remaining-count trailer when holding more than 5, while
the due-tomorrow section lists all of its tasks with no cap and no
trailer; when some bucket is non-empty the rendered summary is the
newline-join of these parts. -/
theorem summary_renderer_layout (um : String) (d : UserTasks) :
    (summaryParts um d =
      [titleLine um] ++ overdueSectionSpec d.overdue
        ++ tomorrowSectionSpec d.due_tomorrow ++ weekSectionSpec d.due_this_week) ∧
    (overdueSectionSpec d.overdue).countP isTaskBullet = min 5 d.overdue.length ∧
    (tomorrowSectionSpec d.due_tomorrow).countP isTaskBullet = d.due_tomorrow.length ∧
    (weekSectionSpec d.due_this_week).countP isTaskBullet = min 5 d.due_this_week.length ∧
    ((overdueSectionSpec d.overdue).countP isMoreTrailer =
      if d.overdue.length > 5 then 1 else 0) ∧
    (tomorrowSectionSpec d.due_tomorrow).countP isMoreTrailer = 0 ∧
    ((weekSectionSpec d.due_this_week).countP isMoreTrailer =
      if d.due_this_week.length > 5 then 1 else 0) ∧
    (¬(d.overdue.length = 0 ∧ d.due_tomorrow.length = 0 ∧ d.due_this_week.length = 0) →
      format_task_summary um (some d) = String.intercalate "\n" (summaryParts um d)) := by
  refine ⟨rfl, overdueSection_bullets d.overdue, tomorrowSection_bullets d.due_tomorrow,
    weekSection_bullets d.due_this_week, overdueSection_trailer d.overdue,
    tomorrowSection_trailer d.due_tomorrow, weekSection_trailer d.due_this_week, ?_⟩
  intro h
  have hred : format_task_summary um (some d) =
      if d.overdue.length = 0 ∧ d.due_tomorrow.length = 0 ∧ d.due_this_week.length = 0 then
        toString "✅ " ++ toString um ++ toString " has no upcoming or overdue tasks!"
      else String.intercalate "\n" (summaryParts um d) := rfl
  rw [hred, if_neg h]

/-- A generated due-tomorrow task for the renderer counterexample. -/
def tomorrowTask (k : Nat) : TaskInfo :=
  { name := s!"T{k}", due_date := 1, status := Json.null, assigned_people := [] }

/-- A digest whose due-tomorrow bucket holds six tasks. -/
def sixTomorrow : UserTasks :=
  { overdue := [], due_this_week := [],
    due_tomorrow := [tomorrowTask 1, tomorrowTask 2, tomorrowTask 3,
      tomorrowTask 4, tomorrowTask 5, tomorrowTask 6] }

/-- C4 counterexample: a section holding six tasks (due-tomorrow) lists
all six task lines and emits no remaining-count trailer, so the rendered
summary does not limit every section to 5 tasks with a trailer. -/
theorem tomorrow_section_uncapped :
    sixTomorrow.due_tomorrow.length = 6 ∧
    (summaryParts "U" sixTomorrow).countP isTaskBullet = 6 ∧
    (summaryParts "U" sixTomorrow).countP isMoreTrailer = 0 :=
  ⟨rfl, rfl, rfl⟩

/-- A digest with one overdue task, for the renderer witness. -/
def oneOverdue : UserTasks :=
  { overdue := [{ name := "A", due_date := 0, status := Json.null, assigned_people := [] }],
    due_this_week := [], due_tomorrow := [] }

/-- C4 witness: on a digest with one overdue task the rendered summary is
the newline-join of the parts. -/
theorem summary_renderer_layout_witness :
    format_task_summary "U" (some oneOverdue) =
      String.intercalate "\n" (summaryParts "U" oneOverdue) :=
  (summary_renderer_layout "U" oneOverdue).2.2.2.2.2.2.2 (by decide)

/-- Lookup distributes over association-list append. -/
theorem lookupStr_append (l1 l2 : List (String × Json)) (k : String) :
    lookupStr (l1 ++ l2) k =
      match lookupStr l1 k with
      | some v => some v
      | Option.none => lookupStr l2 k := by
  induction l1 with
  | nil => rfl
  | cons kv rest ih =>
    obtain ⟨k1, v1⟩ := kv
    by_cases hk : k1 = k
    · simp [lookupStr, hk]
    · simp [lookupStr, hk, ih]

/-- A status-object or select-object field of the generated Status
property, present only when the shape is. -/
def statusShapeField (k : String) : Option String → List (String × Json)
  | some s => [(k, Json.obj [("name", Json.str s)])]
  | Option.none => []

/-- A generated multi-select entry: an object with or without a name. -/
def msEntryJson : Option String → Json
  | some s => Json.obj [("name", Json.str s)]
  | Option.none => Json.obj []

/-- The multi-select field of the generated Status property. -/
def msField : Option (List (Option String)) → List (String × Json)
  | some entries => [("multi_select", Json.arr (entries.map msEntryJson))]
  | Option.none => []

/-- A raw record whose Status property carries any combination of the
three status encodings. -/
def mkStatusRecord (st se : Option String) (ms : Option (List (Option String))) : Json :=
  Json.obj [("Status", Json.obj
    (statusShapeField "status" st ++ (statusShapeField "select" se ++ msField ms)))]

/-- Modelled from the spec: a shape's name populates it only when
non-empty. -/
def populatedName : Option String → Option String
  | some s => if s = "" then Option.none else some s
  | Option.none => Option.none

/-- The first multi-select element's name, when the list is non-empty. -/
def msFirst : Option (List (Option String)) → Option String
  | some (x :: _) => x
  | _ => Option.none

/-- Embedding of a spec-level status result into the code's value. -/
def optToJson : Option String → Json
  | some s => Json.str s
  | Option.none => Json.null

/-- Modelled from the spec: check the dedicated status object, then the
single-select object, then the multi-select list, in that priority order;
use the first populated shape's name (for multi-select, only the first
element's name); absent in all shapes means absent status. -/
def firstPopulatedStatus (st se : Option String)
    (ms : Option (List (Option String))) : Option String :=
  match populatedName st with
  | some s => some s
  | Option.none =>
    match populatedName se with
    | some s => some s
    | Option.none => msFirst ms

/-- The multi-select fallback of status extraction, over any Status fields
that carry no `multi_select` key of their own: the first element's name. -/
theorem statusMultiBranch_gen (pre : List (String × Json))
    (ms : Option (List (Option String)))
    (hpre : lookupStr pre "multi_select" = Option.none) :
    statusMultiBranch (Json.obj (pre ++ msField ms)) =
      Except.ok (optToJson (msFirst ms)) := by
  cases ms with
  | none =>
    simp [statusMultiBranch, msField, Json.dictGet, lookupStr_append, hpre,
      Json.truthy, pyBindOk, msFirst, optToJson]
    rfl
  | some entries =>
    cases entries with
    | nil =>
      simp [statusMultiBranch, msField, Json.dictGet, lookupStr_append, hpre,
        lookupStr, Json.truthy, pyBindOk, msFirst, optToJson]
      rfl
    | cons x r =>
      cases x with
      | none =>
        simp [statusMultiBranch, msField, Json.dictGet, Json.subscr, Json.pyLen,
          Json.pyIndex, lookupStr_append, hpre, lookupStr, Json.truthy, pyBindOk,
          msFirst, optToJson, msEntryJson]
      | some q =>
        simp [statusMultiBranch, msField, Json.dictGet, Json.subscr, Json.pyLen,
          Json.pyIndex, lookupStr_append, hpre, lookupStr, Json.truthy, pyBindOk,
          msFirst, optToJson, msEntryJson]

/-- The multi-select field never answers for the `select` key. -/
theorem msField_no_select (ms : Option (List (Option String))) :
    lookupStr (msField ms) "select" = Option.none := by
  cases ms <;> simp [msField, lookupStr]

/-- The select-then-multi-select fallback of status extraction, over any
Status fields that carry neither a `select` nor a `multi_select` key of
their own: the select name when populated, else the multi-select answer. -/
theorem statusSelectBranch_gen (pre : List (String × Json)) (se : Option String)
    (ms : Option (List (Option String)))
    (hpre1 : lookupStr pre "select" = Option.none)
    (hpre2 : lookupStr pre "multi_select" = Option.none) :
    statusSelectBranch (Json.obj (pre ++ (statusShapeField "select" se ++ msField ms))) =
      Except.ok (optToJson (match populatedName se with
        | some s => some s
        | Option.none => msFirst ms)) := by
  cases se with
  | none =>
    simp only [statusShapeField, List.nil_append]
    have hsel : (Json.obj (pre ++ msField ms)).dictGet "select" = Except.ok Json.null := by
      simp [Json.dictGet, lookupStr_append, hpre1, msField_no_select]
    unfold statusSelectBranch
    simp only [hsel, pyBindOk]
    rw [show Json.truthy Json.null = false from rfl]
    simp only [Bool.false_eq_true, if_false]
    rw [statusMultiBranch_gen pre ms hpre2]
    rfl
  | some s =>
    have hsel : (Json.obj (pre ++ (statusShapeField "select" (some s) ++ msField ms))).dictGet
        "select" = Except.ok (Json.obj [("name", Json.str s)]) := by
      simp [Json.dictGet, lookupStr_append, hpre1, statusShapeField, lookupStr]
    have hsub : (Json.obj (pre ++ (statusShapeField "select" (some s) ++ msField ms))).subscr
        "select" = Except.ok (Json.obj [("name", Json.str s)]) := by
      simp [Json.subscr, lookupStr_append, hpre1, statusShapeField, lookupStr]
    unfold statusSelectBranch
    simp only [hsel, pyBindOk]
    rw [show Json.truthy (Json.obj [("name", Json.str s)]) = true from rfl]
    rw [if_pos rfl]
    simp only [hsub, pyBindOk]
    rw [show (Json.obj [("name", Json.str s)]).dictGet "name" =
      Except.ok (Json.str s) from by simp [Json.dictGet, lookupStr]]
    simp only [pyBindOk]
    rw [show Json.truthy (Json.str s) = decide (s ≠ "") from rfl]
    by_cases hs : s = ""
    · subst hs
      rw [if_neg (by simp)]
      rw [show pre ++ (statusShapeField "select" (some "") ++ msField ms) =
        (pre ++ statusShapeField "select" (some "")) ++ msField ms from
        (List.append_assoc pre _ _).symm]
      rw [statusMultiBranch_gen (pre ++ statusShapeField "select" (some "")) ms
        (by simp [lookupStr_append, hpre2, statusShapeField, lookupStr])]
      rfl
    · rw [if_pos (by simpa using hs)]
      rw [show (Json.obj [("name", Json.str s)]).subscr "name" =
        Except.ok (Json.str s) from by simp [Json.subscr, lookupStr]]
      simp [populatedName, hs, optToJson]

/-- The select field never answers for the `status` key. -/
theorem seField_no_status (se : Option String) :
    lookupStr (statusShapeField "select" se) "status" = Option.none := by
  cases se <;> simp [statusShapeField, lookupStr]

/-- The multi-select field never answers for the `status` key. -/
theorem msField_no_status (ms : Option (List (Option String))) :
    lookupStr (msField ms) "status" = Option.none := by
  cases ms <;> simp [msField, lookupStr]

/-- C8: on every record carrying any combination of the three status
encodings, status extraction checks the dedicated status object, then the
single-select object, then the multi-select list, in that fixed priority
order, and returns the first populated shape's name (for multi-select,
only the first element's name); when no shape is populated the status is
absent. -/
theorem status_priority_order (st se : Option String)
    (ms : Option (List (Option String))) :
    extract_task_status (mkStatusRecord st se ms) =
      Except.ok (optToJson (firstPopulatedStatus st se ms)) := by
  cases st with
  | none =>
    have hst : (Json.obj (statusShapeField "status" Option.none ++
        (statusShapeField "select" se ++ msField ms))).dictGet "status" =
        Except.ok Json.null := by
      cases se <;> cases ms <;>
        simp [Json.dictGet, statusShapeField, msField, lookupStr_append, lookupStr]
    unfold extract_task_status mkStatusRecord
    rw [show (Json.obj [("Status", Json.obj (statusShapeField "status" Option.none ++
      (statusShapeField "select" se ++ msField ms)))]).dictGetD "Status" (Json.obj []) =
      Except.ok (Json.obj (statusShapeField "status" Option.none ++
        (statusShapeField "select" se ++ msField ms))) from rfl]
    simp only [pyBindOk, hst]
    rw [show Json.truthy Json.null = false from rfl]
    simp only [Bool.false_eq_true, if_false]
    rw [show statusShapeField "status" Option.none ++
      (statusShapeField "select" se ++ msField ms) =
      ([] : List (String × Json)) ++ (statusShapeField "select" se ++ msField ms) from rfl]
    rw [statusSelectBranch_gen [] se ms rfl rfl]
    rfl
  | some s =>
    have hst : (Json.obj (statusShapeField "status" (some s) ++
        (statusShapeField "select" se ++ msField ms))).dictGet "status" =
        Except.ok (Json.obj [("name", Json.str s)]) := by
      simp [Json.dictGet, statusShapeField, lookupStr]
    have hsub : (Json.obj (statusShapeField "status" (some s) ++
        (statusShapeField "select" se ++ msField ms))).subscr "status" =
        Except.ok (Json.obj [("name", Json.str s)]) := by
      simp [Json.subscr, statusShapeField, lookupStr]
    unfold extract_task_status mkStatusRecord
    rw [show (Json.obj [("Status", Json.obj (statusShapeField "status" (some s) ++
      (statusShapeField "select" se ++ msField ms)))]).dictGetD "Status" (Json.obj []) =
      Except.ok (Json.obj (statusShapeField "status" (some s) ++
        (statusShapeField "select" se ++ msField ms))) from rfl]
    simp only [pyBindOk, hst, hsub]
    rw [show Json.truthy (Json.obj [("name", Json.str s)]) = true from rfl]
    rw [if_pos rfl]
    rw [show (Json.obj [("name", Json.str s)]).dictGet "name" =
      Except.ok (Json.str s) from by simp [Json.dictGet, lookupStr]]
    simp only [pyBindOk]
    rw [show Json.truthy (Json.str s) = decide (s ≠ "") from rfl]
    by_cases hs : s = ""
    · subst hs
      rw [if_neg (by simp)]
      rw [statusSelectBranch_gen (statusShapeField "status" (some "")) se ms
        (by simp [statusShapeField, lookupStr]) (by simp [statusShapeField, lookupStr])]
      simp [firstPopulatedStatus, populatedName]
    · rw [if_pos (by simpa using hs)]
      rw [show (Json.obj [("name", Json.str s)]).subscr "name" =
        Except.ok (Json.str s) from by simp [Json.subscr, lookupStr]]
      simp [firstPopulatedStatus, populatedName, hs, optToJson]

/-- An except value is ok exactly when it carries some result. -/
theorem exOk_exists {α : Type} (e : Except PyErr α) :
    exOk e = true ↔ ∃ a, e = Except.ok a := by
  cases e <;> simp [exOk]

/-- The `content` entry of a title block is harmless when absent, falsy,
or a string (anything else reaches `.strip()` and raises). -/
def contentFieldOK : Option Json → Bool
  | Option.none => true
  | some c => !c.truthy || c.isStr

/-- The `text` entry of a title block must be an object when present. -/
def textObjOK : Json → Bool
  | Json.obj txkvs => contentFieldOK (lookupStr txkvs "content")
  | _ => false

/-- The `text` field of a title block, when present, must be an object. -/
def textFieldOK : Option Json → Bool
  | Option.none => true
  | some tx => textObjOK tx

/-- A title block must be an object with a well-shaped `text` field. -/
def blockOK : Json → Bool
  | Json.obj bkvs => textFieldOK (lookupStr bkvs "text")
  | _ => false

/-- A title value is well shaped when falsy, or a non-empty list whose
first block is well shaped. -/
def titleOK (ttl : Json) : Bool :=
  !ttl.truthy ||
    (match ttl with
     | Json.arr (fb :: _) => blockOK fb
     | _ => false)

/-- The `title` field of the Task property, when present, must be a
well-shaped title value. -/
def titleFieldOK : Option Json → Bool
  | Option.none => true
  | some ttl => titleOK ttl

/-- A present Task property must be an object. -/
def taskObjOK : Json → Bool
  | Json.obj tkvs => titleFieldOK (lookupStr tkvs "title")
  | _ => false

/-- The Task property may be absent; present it must be well shaped. -/
def taskValOK : Option Json → Bool
  | Option.none => true
  | some tv => taskObjOK tv

/-- A record is name-extractable when it is an object whose Task property
is absent or well shaped. -/
def taskPropOK : Json → Bool
  | Json.obj kvs => taskValOK (lookupStr kvs "Task")
  | _ => false

/-- Assignee entries are well shaped when each is an object. -/
def entriesOK (xs : List Json) : Bool := xs.all Json.isObj

/-- The multi-select fallback of the Assign property is well shaped when a
truthy `multi_select` list has object entries (non-list values fall out of
the isinstance guard harmlessly). -/
def assignMultiOK (akvs : List (String × Json)) : Bool :=
  if ((lookupStr akvs "multi_select").getD Json.null).truthy then
    (match (lookupStr akvs "multi_select").getD Json.null with
     | Json.arr xs => entriesOK xs
     | _ => true)
  else true

/-- A present Assign property must be an object whose probed shapes carry
object entries wherever the code iterates. -/
def assignObjOK : Json → Bool
  | Json.obj akvs =>
    (if ((lookupStr akvs "people").getD Json.null).truthy then
       (match (lookupStr akvs "people").getD Json.null with
        | Json.arr xs => entriesOK xs
        | _ => assignMultiOK akvs)
     else assignMultiOK akvs)
  | _ => false

/-- The Assign property may be absent; present it must be well shaped. -/
def assignValOK : Option Json → Bool
  | Option.none => true
  | some av => assignObjOK av

/-- A record is assignee-extractable when it is an object whose Assign
property is absent or well shaped. -/
def assignPropOK : Json → Bool
  | Json.obj kvs => assignValOK (lookupStr kvs "Assign")
  | _ => false

/-- The multi-select shape of the Status property is well shaped when a
truthy `multi_select` value is a list with an object first element. -/
def statusMultiOK (skvs : List (String × Json)) : Bool :=
  if ((lookupStr skvs "multi_select").getD Json.null).truthy then
    (match (lookupStr skvs "multi_select").getD Json.null with
     | Json.arr (x :: _) => x.isObj
     | Json.arr [] => true
     | _ => false)
  else true

/-- The select shape of the Status property is well shaped: a truthy
`select` is an object, and when its name is falsy the multi-select
fallback must be well shaped too. -/
def statusSelectOK (skvs : List (String × Json)) : Bool :=
  if ((lookupStr skvs "select").getD Json.null).truthy then
    (match (lookupStr skvs "select").getD Json.null with
     | Json.obj svkvs =>
       (if ((lookupStr svkvs "name").getD Json.null).truthy then true
        else statusMultiOK skvs)
     | _ => false)
  else statusMultiOK skvs

/-- The status-object shape of the Status property, with fallbacks. -/
def statusChainOK (skvs : List (String × Json)) : Bool :=
  if ((lookupStr skvs "status").getD Json.null).truthy then
    (match (lookupStr skvs "status").getD Json.null with
     | Json.obj svkvs =>
       (if ((lookupStr svkvs "name").getD Json.null).truthy then true
        else statusSelectOK skvs)
     | _ => false)
  else statusSelectOK skvs

/-- A present Status property must be an object with well-shaped chains. -/
def statusObjOK : Json → Bool
  | Json.obj skvs => statusChainOK skvs
  | _ => false

/-- The Status property may be absent; present it must be well shaped. -/
def statusValOK : Option Json → Bool
  | Option.none => true
  | some sp => statusObjOK sp

/-- A record is status-extractable when it is an object whose Status
property is absent or well shaped. -/
def statusPropOK : Json → Bool
  | Json.obj kvs => statusValOK (lookupStr kvs "Status")
  | _ => false

/-- Name extraction is total on well-shaped Task properties. -/
theorem extract_task_name_total (props : Json) (h : taskPropOK props = true) :
    exOk (extract_task_name props) = true := by
  cases props with
  | obj kvs =>
    simp only [taskPropOK] at h
    unfold extract_task_name
    rw [show (Json.obj kvs).dictGetD "Task" (Json.obj []) =
      Except.ok ((lookupStr kvs "Task").getD (Json.obj [])) from rfl]
    simp only [pyBindOk]
    rcases htv : lookupStr kvs "Task" with _ | tv
    · rfl
    · rw [htv] at h
      simp only [taskValOK] at h
      simp only [Option.getD_some]
      cases tv with
      | obj tkvs =>
        simp only [taskObjOK] at h
        rw [show (Json.obj tkvs).dictGet "title" =
          Except.ok ((lookupStr tkvs "title").getD Json.null) from rfl]
        simp only [pyBindOk]
        rcases httl : lookupStr tkvs "title" with _ | ttl
        · rfl
        · rw [httl] at h
          simp only [titleFieldOK] at h
          simp only [Option.getD_some]
          by_cases htr : ttl.truthy = true
          · unfold titleOK at h
            rw [htr] at h
            simp only [Bool.not_true, Bool.false_or] at h
            rw [if_pos htr]
            cases ttl with
            | arr xs =>
              cases xs with
              | nil => simp at h
              | cons fb rest =>
                rw [show (Json.obj tkvs).subscr "title" =
                  Except.ok (Json.arr (fb :: rest)) from by simp [Json.subscr, httl]]
                simp only [pyBindOk]
                rw [show (Json.arr (fb :: rest)).pyLen =
                  Except.ok (rest.length + 1) from by simp [Json.pyLen]]
                simp only [pyBindOk]
                rw [if_pos (Nat.succ_pos rest.length)]
                rw [show (Json.arr (fb :: rest)).pyIndex 0 = Except.ok fb from rfl]
                simp only [pyBindOk]
                cases fb with
                | obj bkvs =>
                  simp only [blockOK] at h
                  rw [show (Json.obj bkvs).dictGetD "text" (Json.obj []) =
                    Except.ok ((lookupStr bkvs "text").getD (Json.obj [])) from rfl]
                  simp only [pyBindOk]
                  rcases hbt : lookupStr bkvs "text" with _ | tx
                  · rfl
                  · rw [hbt] at h
                    simp only [textFieldOK] at h
                    simp only [Option.getD_some]
                    cases tx with
                    | obj txkvs =>
                      simp only [textObjOK] at h
                      rw [show (Json.obj txkvs).dictGet "content" =
                        Except.ok ((lookupStr txkvs "content").getD Json.null) from rfl]
                      simp only [pyBindOk]
                      rcases hc : lookupStr txkvs "content" with _ | c
                      · rfl
                      · rw [hc] at h
                        simp only [contentFieldOK] at h
                        simp only [Option.getD_some]
                        by_cases hct : c.truthy = true
                        · rw [hct] at h
                          simp only [Bool.not_true, Bool.false_or] at h
                          rw [if_pos hct]
                          cases c with
                          | str cs =>
                            rw [show (Json.obj bkvs).subscr "text" =
                              Except.ok (Json.obj txkvs) from by simp [Json.subscr, hbt]]
                            simp only [pyBindOk]
                            rw [show (Json.obj txkvs).subscr "content" =
                              Except.ok (Json.str cs) from by simp [Json.subscr, hc]]
                            simp only [pyBindOk]
                            rw [show (Json.str cs).pyStrip =
                              Except.ok (String.mk (stripChars cs.data)) from rfl]
                            simp only [pyBindOk]
                            split <;> rfl
                          | null => simp [Json.isStr] at h
                          | bool b => simp [Json.isStr] at h
                          | num n => simp [Json.isStr] at h
                          | arr l => simp [Json.isStr] at h
                          | obj l => simp [Json.isStr] at h
                        · rw [if_neg hct]
                          rfl
                    | null => simp [textObjOK] at h
                    | bool b => simp [textObjOK] at h
                    | num n => simp [textObjOK] at h
                    | str s2 => simp [textObjOK] at h
                    | arr l => simp [textObjOK] at h
                | null => simp [blockOK] at h
                | bool b => simp [blockOK] at h
                | num n => simp [blockOK] at h
                | str s2 => simp [blockOK] at h
                | arr l => simp [blockOK] at h
            | null => simp at h
            | bool b => simp at h
            | num n => simp at h
            | str s2 => simp at h
            | obj l => simp at h
          · rw [if_neg htr]
            rfl
      | null => simp [taskObjOK] at h
      | bool b => simp [taskObjOK] at h
      | num n => simp [taskObjOK] at h
      | str s2 => simp [taskObjOK] at h
      | arr l => simp [taskObjOK] at h
  | null => simp [taskPropOK] at h
  | bool b => simp [taskPropOK] at h
  | num n => simp [taskPropOK] at h
  | str s2 => simp [taskPropOK] at h
  | arr l => simp [taskPropOK] at h

/-- The assignee loop is total on lists of objects. -/
theorem namesLoop_total (xs : List Json) (h : entriesOK xs = true) :
    exOk (namesLoop xs) = true := by
  induction xs with
  | nil => rfl
  | cons p rest ih =>
    simp only [entriesOK, List.all_cons, Bool.and_eq_true] at h
    obtain ⟨hp, hrest⟩ := h
    have ihr := ih hrest
    cases p with
    | obj pkvs =>
      unfold namesLoop
      rw [show (Json.obj pkvs).dictGet "name" =
        Except.ok ((lookupStr pkvs "name").getD Json.null) from rfl]
      simp only [pyBindOk]
      rcases hn : lookupStr pkvs "name" with _ | v
      · simp only [Option.getD_none]
        rw [if_neg (by simp [Json.truthy] : ¬Json.truthy Json.null = true)]
        exact ihr
      · simp only [Option.getD_some]
        by_cases hv : v.truthy = true
        · rw [if_pos hv]
          rw [show (Json.obj pkvs).subscr "name" = Except.ok v from by
            simp [Json.subscr, hn]]
          simp only [pyBindOk]
          obtain ⟨l, hl⟩ := (exOk_exists _).1 ihr
          rw [hl]
          simp only [pyBindOk]
          rfl
        · rw [if_neg hv]
          exact ihr
    | null => simp [Json.isObj] at hp
    | bool b => simp [Json.isObj] at hp
    | num n => simp [Json.isObj] at hp
    | str s2 => simp [Json.isObj] at hp
    | arr l => simp [Json.isObj] at hp

/-- The assignee multi-select fallback is total on well-shaped fields. -/
theorem assignMultiBranch_total (akvs : List (String × Json))
    (h : assignMultiOK akvs = true) :
    exOk (assignMultiBranch (Json.obj akvs)) = true := by
  unfold assignMultiBranch
  unfold assignMultiOK at h
  rw [show (Json.obj akvs).dictGet "multi_select" =
    Except.ok ((lookupStr akvs "multi_select").getD Json.null) from rfl]
  simp only [pyBindOk]
  by_cases hm : ((lookupStr akvs "multi_select").getD Json.null).truthy = true
  · rw [if_pos hm]
    rw [if_pos hm] at h
    rcases hl : lookupStr akvs "multi_select" with _ | mv
    · rw [hl] at hm
      simp [Json.truthy] at hm
    · rw [hl] at h
      simp only [Option.getD_some] at h
      rw [show (Json.obj akvs).subscr "multi_select" = Except.ok mv from by
        simp [Json.subscr, hl]]
      simp only [pyBindOk]
      cases mv with
      | arr xs => exact namesLoop_total xs h
      | null => rfl
      | bool b => rfl
      | num n => rfl
      | str s2 => rfl
      | obj l => rfl
  · rw [if_neg hm]
    rfl

/-- Assignee extraction is total on well-shaped Assign properties. -/
theorem extract_assigned_people_total (props : Json) (h : assignPropOK props = true) :
    exOk (extract_assigned_people props) = true := by
  cases props with
  | obj kvs =>
    simp only [assignPropOK] at h
    unfold extract_assigned_people
    rw [show (Json.obj kvs).dictGetD "Assign" (Json.obj []) =
      Except.ok ((lookupStr kvs "Assign").getD (Json.obj [])) from rfl]
    simp only [pyBindOk]
    rcases hav : lookupStr kvs "Assign" with _ | av
    · rfl
    · rw [hav] at h
      simp only [assignValOK] at h
      simp only [Option.getD_some]
      cases av with
      | obj akvs =>
        simp only [assignObjOK] at h
        rw [show (Json.obj akvs).dictGet "people" =
          Except.ok ((lookupStr akvs "people").getD Json.null) from rfl]
        simp only [pyBindOk]
        by_cases hp : ((lookupStr akvs "people").getD Json.null).truthy = true
        · rw [if_pos hp]
          rw [if_pos hp] at h
          rcases hpl : lookupStr akvs "people" with _ | pv
          · rw [hpl] at hp
            simp [Json.truthy] at hp
          · rw [hpl] at h
            simp only [Option.getD_some] at h
            rw [show (Json.obj akvs).subscr "people" = Except.ok pv from by
              simp [Json.subscr, hpl]]
            simp only [pyBindOk]
            cases pv with
            | arr xs => exact namesLoop_total xs h
            | null => exact assignMultiBranch_total akvs h
            | bool b => exact assignMultiBranch_total akvs h
            | num n => exact assignMultiBranch_total akvs h
            | str s2 => exact assignMultiBranch_total akvs h
            | obj l => exact assignMultiBranch_total akvs h
        · rw [if_neg hp]
          rw [if_neg hp] at h
          exact assignMultiBranch_total akvs h
      | null => simp [assignObjOK] at h
      | bool b => simp [assignObjOK] at h
      | num n => simp [assignObjOK] at h
      | str s2 => simp [assignObjOK] at h
      | arr l => simp [assignObjOK] at h
  | null => simp [assignPropOK] at h
  | bool b => simp [assignPropOK] at h
  | num n => simp [assignPropOK] at h
  | str s2 => simp [assignPropOK] at h
  | arr l => simp [assignPropOK] at h

/-- The status multi-select fallback is total on well-shaped fields. -/
theorem statusMultiBranch_total (skvs : List (String × Json))
    (h : statusMultiOK skvs = true) :
    exOk (statusMultiBranch (Json.obj skvs)) = true := by
  unfold statusMultiBranch
  unfold statusMultiOK at h
  rw [show (Json.obj skvs).dictGet "multi_select" =
    Except.ok ((lookupStr skvs "multi_select").getD Json.null) from rfl]
  simp only [pyBindOk]
  by_cases hm : ((lookupStr skvs "multi_select").getD Json.null).truthy = true
  · rw [if_pos hm]
    rw [if_pos hm] at h
    rcases hl : lookupStr skvs "multi_select" with _ | mv
    · rw [hl] at hm
      simp [Json.truthy] at hm
    · rw [hl] at h
      rw [hl] at hm
      simp only [Option.getD_some] at h hm
      rw [show (Json.obj skvs).subscr "multi_select" = Except.ok mv from by
        simp [Json.subscr, hl]]
      simp only [pyBindOk]
      cases mv with
      | arr xs =>
        cases xs with
        | nil => simp [Json.truthy] at hm
        | cons x r =>
          rw [show (Json.arr (x :: r)).pyLen = Except.ok (r.length + 1) from by
            simp [Json.pyLen]]
          simp only [pyBindOk]
          rw [if_pos (Nat.succ_pos r.length)]
          rw [show (Json.arr (x :: r)).pyIndex 0 = Except.ok x from rfl]
          simp only [pyBindOk]
          cases x with
          | obj xkvs => rfl
          | null => simp [Json.isObj] at h
          | bool b => simp [Json.isObj] at h
          | num n => simp [Json.isObj] at h
          | str s2 => simp [Json.isObj] at h
          | arr l => simp [Json.isObj] at h
      | null => simp at h
      | bool b => simp at h
      | num n => simp at h
      | str s2 => simp at h
      | obj l => simp at h
  · rw [if_neg hm]
    rfl

/-- The status select fallback is total on well-shaped fields. -/
theorem statusSelectBranch_total (skvs : List (String × Json))
    (h : statusSelectOK skvs = true) :
    exOk (statusSelectBranch (Json.obj skvs)) = true := by
  unfold statusSelectBranch
  unfold statusSelectOK at h
  rw [show (Json.obj skvs).dictGet "select" =
    Except.ok ((lookupStr skvs "select").getD Json.null) from rfl]
  simp only [pyBindOk]
  by_cases hse : ((lookupStr skvs "select").getD Json.null).truthy = true
  · rw [if_pos hse]
    rw [if_pos hse] at h
    rcases hl : lookupStr skvs "select" with _ | sv
    · rw [hl] at hse
      simp [Json.truthy] at hse
    · rw [hl] at h
      simp only [Option.getD_some] at h
      rw [show (Json.obj skvs).subscr "select" = Except.ok sv from by
        simp [Json.subscr, hl]]
      simp only [pyBindOk]
      cases sv with
      | obj svkvs =>
        replace h : (if ((lookupStr svkvs "name").getD Json.null).truthy = true then true
          else statusMultiOK skvs) = true := h
        rw [show (Json.obj svkvs).dictGet "name" =
          Except.ok ((lookupStr svkvs "name").getD Json.null) from rfl]
        simp only [pyBindOk]
        by_cases hn : ((lookupStr svkvs "name").getD Json.null).truthy = true
        · rw [if_pos hn]
          rcases hnl : lookupStr svkvs "name" with _ | nv
          · rw [hnl] at hn
            simp [Json.truthy] at hn
          · rw [show (Json.obj svkvs).subscr "name" = Except.ok nv from by
              simp [Json.subscr, hnl]]
            rfl
        · rw [if_neg hn]
          rw [if_neg hn] at h
          exact statusMultiBranch_total skvs h
      | null => simp at h
      | bool b => simp at h
      | num n => simp at h
      | str s2 => simp at h
      | arr l => simp at h
  · rw [if_neg hse]
    rw [if_neg hse] at h
    exact statusMultiBranch_total skvs h

/-- Status extraction is total on well-shaped Status properties. -/
theorem extract_task_status_total (props : Json) (h : statusPropOK props = true) :
    exOk (extract_task_status props) = true := by
  cases props with
  | obj kvs =>
    simp only [statusPropOK] at h
    unfold extract_task_status
    rw [show (Json.obj kvs).dictGetD "Status" (Json.obj []) =
      Except.ok ((lookupStr kvs "Status").getD (Json.obj [])) from rfl]
    simp only [pyBindOk]
    rcases hsv : lookupStr kvs "Status" with _ | sp
    · rfl
    · rw [hsv] at h
      simp only [statusValOK] at h
      simp only [Option.getD_some]
      cases sp with
      | obj skvs =>
        simp only [statusObjOK] at h
        unfold statusChainOK at h
        rw [show (Json.obj skvs).dictGet "status" =
          Except.ok ((lookupStr skvs "status").getD Json.null) from rfl]
        simp only [pyBindOk]
        by_cases hst : ((lookupStr skvs "status").getD Json.null).truthy = true
        · rw [if_pos hst]
          rw [if_pos hst] at h
          rcases hl : lookupStr skvs "status" with _ | sv
          · rw [hl] at hst
            simp [Json.truthy] at hst
          · rw [hl] at h
            simp only [Option.getD_some] at h
            rw [show (Json.obj skvs).subscr "status" = Except.ok sv from by
              simp [Json.subscr, hl]]
            simp only [pyBindOk]
            cases sv with
            | obj svkvs =>
              replace h : (if ((lookupStr svkvs "name").getD Json.null).truthy = true then
                true else statusSelectOK skvs) = true := h
              rw [show (Json.obj svkvs).dictGet "name" =
                Except.ok ((lookupStr svkvs "name").getD Json.null) from rfl]
              simp only [pyBindOk]
              by_cases hn : ((lookupStr svkvs "name").getD Json.null).truthy = true
              · rw [if_pos hn]
                rcases hnl : lookupStr svkvs "name" with _ | nv
                · rw [hnl] at hn
                  simp [Json.truthy] at hn
                · rw [show (Json.obj svkvs).subscr "name" = Except.ok nv from by
                    simp [Json.subscr, hnl]]
                  rfl
              · rw [if_neg hn]
                rw [if_neg hn] at h
                exact statusSelectBranch_total skvs h
            | null => simp at h
            | bool b => simp at h
            | num n => simp at h
            | str s2 => simp at h
            | arr l => simp at h
        · rw [if_neg hst]
          rw [if_neg hst] at h
          exact statusSelectBranch_total skvs h
      | null => simp [statusObjOK] at h
      | bool b => simp [statusObjOK] at h
      | num n => simp [statusObjOK] at h
      | str s2 => simp [statusObjOK] at h
      | arr l => simp [statusObjOK] at h
  | null => simp [statusPropOK] at h
  | bool b => simp [statusPropOK] at h
  | num n => simp [statusPropOK] at h
  | str s2 => simp [statusPropOK] at h
  | arr l => simp [statusPropOK] at h

/-- C3 counterexample: on a record whose Task property is a bare string the
name extractor raises (Python `AttributeError`, `"x".get(...)`) instead of
returning the sentinel default, so extraction is not total over all raw
records. -/
theorem extractor_raises_on_scalar_task :
    extract_task_name (Json.obj [("Task", Json.str "x")]) =
      Except.error PyErr.attributeError := rfl

/-- C3 (amended): the three extractors are total — they return a complete
result, degrading to the default or absent value per field — on every
record whose probed property values have the expected container shapes
(objects and lists where the encodings put them, string content); on other
records they can raise. -/
theorem extractors_total_on_wellshaped (props : Json)
    (h1 : taskPropOK props = true) (h2 : assignPropOK props = true)
    (h3 : statusPropOK props = true) :
    exOk (extract_task_name props) = true ∧
    exOk (extract_assigned_people props) = true ∧
    exOk (extract_task_status props) = true :=
  ⟨extract_task_name_total props h1, extract_assigned_people_total props h2,
   extract_task_status_total props h3⟩

/-- The spec's scenario record, used as the totality witness. -/
def scenarioProps : Json :=
  Json.obj [
    ("Task", Json.obj [("title", Json.arr [Json.obj [("text",
      Json.obj [("content", Json.str "Ship report")])]])]),
    ("Assign", Json.obj [("multi_select", Json.arr [Json.obj [("name", Json.str "Kyle")]])]),
    ("Status", Json.obj [("status", Json.obj [("name", Json.str "To do")])])]

/-- C3 witness: the scenario record is well shaped and extraction of all
three fields succeeds on it. -/
theorem extractors_total_on_wellshaped_witness :
    exOk (extract_task_name scenarioProps) = true ∧
    exOk (extract_assigned_people scenarioProps) = true ∧
    exOk (extract_task_status scenarioProps) = true :=
  extractors_total_on_wellshaped scenarioProps rfl rfl rfl
